import Mathlib

/-!
Shallow embedding of the Guernika model-converter UI logic
(python_coreml_stable_diffusion/torch2coreml_ui.py):

* the preferences store: a key-value document, loaded with backfilled
  defaults (fetch_preferences) and written back as a whole document
  (save_args_preferences, save_last_checkpoint_path);
* the capability probe (is_coremlcompiler_installed), modelled over an
  abstract command runner that either returns output or raises;
* the placeholder text entries (PlaceholderEntry.get);
* the submission flow (convert_model): model-source resolution via the
  python os.path helpers (normpath, basename, splitext), output-size
  parsing with python int semantics, the folder dialog, the argument
  record handed to the converter, and the emitted UI events.

Python strings are modelled as Lean String; python truthiness of the
optional path globals is pyTruthy; str.strip is modelled by pyStrip over
the ASCII whitespace characters.  All string helpers are implemented by
structural recursion over the character list so that every definition
evaluates inside the kernel.
-/

/-- The ASCII whitespace characters stripped by python str.strip. -/
def isPySpace (c : Char) : Bool :=
  c = ' ' || c = '\t' || c = '\n' || c = '\r' || c = '\x0b' || c = '\x0c'

/-- Python str.strip(): drop leading and trailing whitespace. -/
def pyStrip (s : String) : String :=
  String.mk (((s.toList.dropWhile isPySpace).reverse.dropWhile isPySpace).reverse)

/-- Split a character list at every occurrence of sep (python
str.split(sep) / posix component splitting). -/
def splitChar (sep : Char) : List Char → List (List Char)
  | [] => [[]]
  | c :: cs =>
    let rest := splitChar sep cs
    if c = sep then [] :: rest
    else
      match rest with
      | [] => [[c]]
      | g :: gs => (c :: g) :: gs

/-- Split a path string at every slash. -/
def splitOnSlash (s : String) : List String :=
  (splitChar '/' s.toList).map String.mk

/-- Join path components with slashes (sep.join(comps)). -/
def joinSlash : List String → String
  | [] => ""
  | [x] => x
  | x :: xs => x ++ "/" ++ joinSlash xs

/-- ASCII decimal digit test. -/
def isDigitChar (c : Char) : Bool :=
  48 ≤ c.toNat && c.toNat ≤ 57

/-- A value stored in the preferences document: the values that occur are
booleans and strings (filesystem paths are carried as strings). -/
inductive PrefValue where
  | b (x : Bool)
  | s (x : String)
deriving DecidableEq

/-- The preferences document: an insertion-ordered key-value mapping,
as a python dict restricted to the operations the source uses. -/
abbrev Doc := List (String × PrefValue)

/-- First-match lookup in a document (python `d[k]` / `k in d`). -/
def lookupKey : Doc → String → Option PrefValue
  | [], _ => none
  | (k', v) :: rest, k => if k' = k then some v else lookupKey rest k

/-- Python `if k not in d: d[k] = v` — keep an existing binding, append a
missing one at the end (dict insertion order). -/
def setIfAbsent (doc : Doc) (k : String) (v : PrefValue) : Doc :=
  match lookupKey doc k with
  | some _ => doc
  | none => doc ++ [(k, v)]

/-- Python `d[k] = v`: replace the binding in place, or append it. -/
def setKey : Doc → String → PrefValue → Doc
  | [], k, v => [(k, v)]
  | (k', v') :: rest, k, v =>
    if k' = k then (k, v) :: rest else (k', v') :: setKey rest k v

/-- The hard-coded defaults registered by fetch_preferences, in source
order; `home` stands for Path.home(). -/
def defaultEntries (home : String) : List (String × PrefValue) :=
  [("last_model_version", .s "CompVis/stable-diffusion-v1-4"),
   ("convert_unet", .b true),
   ("chunk_unet", .b false),
   ("controlnet_support", .b true),
   ("convert_text_encoder", .b true),
   ("convert_vae_encoder", .b true),
   ("convert_vae_decoder", .b true),
   ("convert_safety_checker", .b false),
   ("compute_unit", .s "CPU_AND_NE"),
   ("from_safetensors", .b false),
   ("last_model_location", .s home),
   ("last_checkpoint_path", .s home),
   ("last_output_folder", .s home)]

/-- The recognized preference keys. -/
def recognizedKeys : List String :=
  ["last_model_version", "convert_unet", "chunk_unet", "controlnet_support",
   "convert_text_encoder", "convert_vae_encoder", "convert_vae_decoder",
   "convert_safety_checker", "compute_unit", "from_safetensors",
   "last_model_location", "last_checkpoint_path", "last_output_folder"]

/-- fetch_preferences: the on-disk document (none when reading or parsing
failed, which the source swallows into an empty dict) followed by the
sequential `if key not in preferences` default registrations. -/
def fetch_preferences (home : String) (loaded : Option Doc) : Doc :=
  let preferences := loaded.getD []
  (defaultEntries home).foldl (fun d kv => setIfAbsent d kv.1 kv.2) preferences

/-- save_last_checkpoint_path: mutate the key and save the whole document;
the returned document is what save_preferences writes to disk. -/
def save_last_checkpoint_path (preferences : Doc) (path : String) : Doc :=
  setKey preferences "last_checkpoint_path" (.s path)

/-- PlaceholderEntry.get: the widget text, except that text equal to the
placeholder string reads back as the empty string. -/
def PlaceholderEntry.get (content placeholder : String) : String :=
  if content = placeholder then "" else content

/-- Python truthiness of the optional path globals: None and the empty
string (a cancelled dialog) are falsy. -/
def pyTruthy : Option String → Bool
  | none => false
  | some s => s != ""

/-- `None if not x else x` applied to an optional path. -/
def pyNorm (o : Option String) : Option String :=
  if pyTruthy o then o else none

/-- Digit-and-underscore tail of a python int literal: underscores only
between digits.  `prevUnd` is true when a digit must follow. -/
def pyIntDigits (prevUnd : Bool) (acc : Nat) : List Char → Option Nat
  | [] => if prevUnd then none else some acc
  | c :: cs =>
    if isDigitChar c then pyIntDigits false (acc * 10 + (c.toNat - 48)) cs
    else if c = '_' then (if prevUnd then none else pyIntDigits true acc cs)
    else none

/-- Python `int(s)` on a decimal string: surrounding whitespace, one
optional sign, digits with single underscores between them;
none when the call raises ValueError. -/
def pyInt (s : String) : Option Int :=
  match (pyStrip s).toList with
  | '+' :: rest => (pyIntDigits true 0 rest).map (fun n => (n : Int))
  | '-' :: rest => (pyIntDigits true 0 rest).map (fun n => -(n : Int))
  | rest => (pyIntDigits true 0 rest).map (fun n => (n : Int))

/-- posixpath.normpath: collapse separators and dots, resolve `..`
components, keep the special double-slash root. -/
def normpath (p : String) : String :=
  if p = "" then "."
  else
    let initialSlashes : Nat :=
      match p.toList with
      | '/' :: '/' :: '/' :: _ => 1
      | '/' :: '/' :: _ => 2
      | '/' :: _ => 1
      | _ => 0
    let comps := splitOnSlash p
    let newComps : List String := comps.foldl
      (fun acc comp =>
        if comp == "" || comp == "." then acc
        else if comp != ".." || (initialSlashes == 0 && acc.isEmpty)
                || (!acc.isEmpty && acc.getLast? == some "..") then acc ++ [comp]
        else if !acc.isEmpty then acc.dropLast
        else acc) []
    let joined := joinSlash newComps
    let res := (if initialSlashes = 2 then "//" else if initialSlashes = 1 then "/" else "") ++ joined
    if res = "" then "." else res

/-- posixpath.basename: everything after the last slash. -/
def basename (p : String) : String :=
  (splitOnSlash p).getLastD ""

/-- posixpath.splitext: split off the extension at the last dot of the
base name, unless every character before that dot (within the base name)
is itself a dot. -/
def splitext (p : String) : String × String :=
  let rev := p.toList.reverse
  let afterSep := rev.takeWhile (fun c => c != '/')
  if afterSep.contains '.' then
    let remaining := afterSep.dropWhile (fun c => c != '.')
    if (remaining.drop 1).all (fun c => c == '.') then (p, "")
    else
      let extLen := (afterSep.takeWhile (fun c => c != '.')).length + 1
      (String.mk (p.toList.take (p.length - extLen)),
       String.mk (p.toList.drop (p.length - extLen)))
  else (p, "")

/-- Model-source resolution of convert_model: the trimmed entry text (with
placeholder semantics, the placeholder being the stored default), falling
back to the stored default when empty, then overridden by a selected
checkpoint file (base name without extension), then overridden by a
selected local model directory (base name). -/
def resolveModelVersion (versionEntry lastModelVersion : String)
    (ckpt dir : Option String) : String :=
  let model_version := pyStrip (PlaceholderEntry.get versionEntry lastModelVersion)
  let model_version := if model_version = "" then lastModelVersion else model_version
  let model_version :=
    if pyTruthy ckpt then (splitext (basename (normpath (ckpt.getD "")))).1
    else model_version
  if pyTruthy dir then basename (normpath (dir.getD "")) else model_version

/-- The raw user-editable state read by convert_model: underlying entry
texts, the two optional path globals, checkbox values, the compute-unit
radio value, and the destination-folder dialog result. -/
structure RawInput where
  versionEntry : String
  controlnetEntry : String
  widthEntry : String
  heightEntry : String
  ckpt_location : Option String
  model_location : Option String
  convert_unet : Bool
  chunk_unet : Bool
  controlnet_support : Bool
  convert_text_encoder : Bool
  convert_vae_encoder : Bool
  convert_vae_decoder : Bool
  convert_safety_checker : Bool
  compute_unit : String
  from_safetensors : Bool
  output_folder : String
deriving DecidableEq

/-- The Namespace handed to torch2coreml.main. -/
structure Args where
  attention_implementation : String
  bundle_resources_for_guernika : Bool
  check_output_correctness : Bool
  chunk_unet : Bool
  controlnet_support : Bool
  convert_safety_checker : Bool
  convert_text_encoder : Bool
  convert_unet : Bool
  convert_vae_decoder : Bool
  convert_vae_encoder : Bool
  controlnet_version : Option String
  output_h : Option Int
  output_w : Option Int
  compute_unit : String
  model_location : Option String
  from_safetensors : Bool
  model_version : String
  checkpoint_path : Option String
  original_config_file : Option String
  resources_dir_name : String
  clean_up_mlpackages : Bool
  o : String
  quantize_weights_to_8bits : Bool
  text_encoder_merges_url : String
  text_encoder_vocabulary_url : String
deriving DecidableEq

/-- Placeholder string of the ControlNet version entry. -/
def controlnetPlaceholder : String :=
  "Empty for no ControlNet (lllyasviel/sd-controlnet-depth)"

/-- The argument record built on line 413-439 of the source, given the
already-resolved model version and parsed output sizes. -/
def buildArgs (input : RawInput) (model_version : String)
    (output_h output_w : Option Int) : Args :=
  let controlnet_version :=
    pyStrip (PlaceholderEntry.get input.controlnetEntry controlnetPlaceholder)
  { attention_implementation :=
      if input.compute_unit = "CPU_AND_GPU" then "ORIGINAL" else "SPLIT_EINSUM"
    bundle_resources_for_guernika := true
    check_output_correctness := false
    chunk_unet := input.chunk_unet
    controlnet_support := input.controlnet_support
    convert_safety_checker := input.convert_safety_checker
    convert_text_encoder := input.convert_text_encoder
    convert_unet := input.convert_unet
    convert_vae_decoder := input.convert_vae_decoder
    convert_vae_encoder := input.convert_vae_encoder
    controlnet_version := if controlnet_version = "" then none else some controlnet_version
    output_h := output_h
    output_w := output_w
    compute_unit := input.compute_unit
    model_location := pyNorm input.model_location
    from_safetensors := input.from_safetensors
    model_version := model_version
    checkpoint_path := pyNorm input.ckpt_location
    original_config_file := none
    resources_dir_name := model_version
    clean_up_mlpackages := true
    o := input.output_folder
    quantize_weights_to_8bits := false
    text_encoder_merges_url :=
      "https://huggingface.co/openai/clip-vit-base-patch32/resolve/main/merges.txt"
    text_encoder_vocabulary_url :=
      "https://huggingface.co/openai/clip-vit-base-patch32/resolve/main/vocab.json" }

/-- save_args_preferences: the full document written to disk after a
submission, assembled from the argument record. -/
def save_args_preferences (args : Args) : Doc :=
  let preferences : Doc :=
    [("convert_unet", .b args.convert_unet),
     ("chunk_unet", .b args.chunk_unet),
     ("controlnet_support", .b args.controlnet_support),
     ("convert_text_encoder", .b args.convert_text_encoder),
     ("convert_vae_encoder", .b args.convert_vae_encoder),
     ("convert_vae_decoder", .b args.convert_vae_decoder),
     ("convert_safety_checker", .b args.convert_safety_checker),
     ("compute_unit", .s args.compute_unit),
     ("last_output_folder", .s args.o),
     ("from_safetensors", .b args.from_safetensors)]
  let preferences :=
    if pyTruthy args.model_location then
      setKey preferences "last_model_location" (.s (args.model_location.getD ""))
    else preferences
  let preferences :=
    if pyTruthy args.checkpoint_path then
      setKey preferences "last_checkpoint_path" (.s (args.checkpoint_path.getD ""))
    else preferences
  if !pyTruthy args.checkpoint_path && !pyTruthy args.model_location then
    setKey preferences "last_model_version" (.s args.model_version)
  else preferences

/-- The observable UI side effects of convert_model, in order. -/
inductive UIEvent where
  | savePrefs (doc : Doc)
  | showConverting (busy : Bool)
  | converterCall
  | showError (msg : String)
  | showInfo (msg : String)
deriving DecidableEq

def coremlMsg : String := "CoreMLCompiler not available."
def chooseModelMsg : String := "You need to choose a model to convert"
def invalidSizeMsg : String := "Invalid output size"
def conversionFailedMsg : String := "An error occurred during conversion"
def conversionSuccessMsg : String := "Model successfully converted"

/-- How one call to convert_model ends: blocked on the missing toolchain,
stopped by a validation error dialog, silently aborted by a cancelled
destination-folder dialog, or run to the converter (success records
whether torch2coreml.main returned normally). -/
inductive Outcome where
  | blocked
  | invalid (msg : String)
  | abortedFolder
  | ran (args : Args) (success : Bool)
deriving DecidableEq

/-- The try-block around the two int() calls: height first, then width;
an empty trimmed field leaves the value None, a non-empty field that does
not parse raises, answering none. -/
def parseSizes (heightEntry widthEntry : String) : Option (Option Int × Option Int) :=
  let output_h_str := pyStrip (PlaceholderEntry.get heightEntry "Height")
  match (if output_h_str = "" then some none else (pyInt output_h_str).map some) with
  | none => none
  | some output_h =>
    let output_w_str := pyStrip (PlaceholderEntry.get widthEntry "Width")
    match (if output_w_str = "" then some none else (pyInt output_w_str).map some) with
    | none => none
    | some output_w => some (output_h, output_w)

/-- The control flow of convert_model: toolchain gate (re-probe result
reprobeOk is consulted only when the cached flag is false), model-source
resolution and emptiness check, output-size parsing, destination-folder
check, then the converter run. -/
def convert_model_outcome (coremlcompiler_installed reprobeOk : Bool)
    (lastModelVersion : String) (input : RawInput) (converterRaises : Bool) : Outcome :=
  if !coremlcompiler_installed && !reprobeOk then .blocked
  else
    let model_version :=
      resolveModelVersion input.versionEntry lastModelVersion
        input.ckpt_location input.model_location
    if model_version = "" then .invalid chooseModelMsg
    else
      match parseSizes input.heightEntry input.widthEntry with
      | none => .invalid invalidSizeMsg
      | some (output_h, output_w) =>
        if pyStrip input.output_folder = "" then .abortedFolder
        else .ran (buildArgs input model_version output_h output_w) (!converterRaises)

/-- The UI events each exit path of convert_model produces, in source
order: the two validation dialogs fire before any busy signaling; a run
writes the preferences first, enters busy state, calls the converter,
reports the result, and clears busy state in the finally block. -/
def convert_model_events : Outcome → List UIEvent
  | .blocked => [.showError coremlMsg]
  | .invalid msg => [.showError msg]
  | .abortedFolder => []
  | .ran args success =>
      [.savePrefs (save_args_preferences args), .showConverting true, .converterCall,
       (if success then .showInfo conversionSuccessMsg else .showError conversionFailedMsg),
       .showConverting false]

/-- One call to convert_model: its outcome and the UI events it emits. -/
def convert_model (coremlcompiler_installed reprobeOk : Bool)
    (lastModelVersion : String) (input : RawInput) (converterRaises : Bool) :
    Outcome × List UIEvent :=
  let o := convert_model_outcome coremlcompiler_installed reprobeOk
    lastModelVersion input converterRaises
  (o, convert_model_events o)

/-- Did the call end in a validation error dialog? -/
def isValidationError : Outcome → Bool
  | .invalid _ => true
  | _ => false

/-- Did the call reach the converter? -/
def isRan : Outcome → Bool
  | .ran _ _ => true
  | _ => false

/-- The argument record of a run, when one happened. -/
def outcomeArgs : Outcome → Option Args
  | .ran a _ => some a
  | _ => none

/-- Whether the converter returned normally, when a run happened. -/
def ranSuccess : Outcome → Option Bool
  | .ran _ b => some b
  | _ => none

/-- Is this event a preferences write? -/
def isSavePrefs : UIEvent → Bool
  | .savePrefs _ => true
  | _ => false

/-- Result classifier for the modelled command runner. -/
def exceptOk : Except String String → Bool
  | .ok _ => true
  | .error _ => false

/-- is_coremlcompiler_installed: run `xcrun --version`; if it raises,
false; otherwise run `xcrun coremlcompiler version`; if it raises, false;
otherwise true.  The runner returns the captured output or the raised
error, so the function itself never propagates. -/
def is_coremlcompiler_installed (runCommand : List String → Except String String) : Bool :=
  match runCommand ["xcrun", "--version"] with
  | .error _ => false
  | .ok _ =>
    match runCommand ["xcrun", "coremlcompiler", "version"] with
    | .error _ => false
    | .ok _ => true

/-- Enabled state (NORMAL = true) of every control touched by
show_converting. -/
structure ControlsState where
  version_entry : Bool
  local_model_button : Bool
  ckpt_button : Bool
  safetensors_model_check : Bool
  convert_unet_check : Bool
  chunk_unet_check : Bool
  controlnet_support_check : Bool
  convert_text_encoder_check : Bool
  convert_encoder_check : Bool
  convert_decoder_check : Bool
  convert_safety_checker_check : Bool
  select_none_button : Bool
  select_all_button : Bool
  controlnet_version_entry : Bool
  width_entry : Bool
  height_entry : Bool
  cpu_and_ne_check : Bool
  cpu_and_gpu_check : Bool
  all_compute_units_check : Bool
deriving DecidableEq

/-- show_converting: every control is disabled while converting and
re-enabled afterwards, except that the two UNet-dependent checkboxes come
back only when the UNet checkbox is on. -/
def show_converting (is_converting : Bool) (convert_unet_on : Bool) : ControlsState :=
  { version_entry := !is_converting
    local_model_button := !is_converting
    ckpt_button := !is_converting
    safetensors_model_check := !is_converting
    convert_unet_check := !is_converting
    chunk_unet_check := if is_converting then false else (if convert_unet_on then true else false)
    controlnet_support_check := if is_converting then false else (if convert_unet_on then true else false)
    convert_text_encoder_check := !is_converting
    convert_encoder_check := !is_converting
    convert_decoder_check := !is_converting
    convert_safety_checker_check := !is_converting
    select_none_button := !is_converting
    select_all_button := !is_converting
    controlnet_version_entry := !is_converting
    width_entry := !is_converting
    height_entry := !is_converting
    cpu_and_ne_check := !is_converting
    cpu_and_gpu_check := !is_converting
    all_compute_units_check := !is_converting }

/-- The interactive idle configuration: everything enabled, the two
UNet-dependent checkboxes gated on the UNet flag. -/
def idleControls (convert_unet_on : Bool) : ControlsState :=
  { version_entry := true
    local_model_button := true
    ckpt_button := true
    safetensors_model_check := true
    convert_unet_check := true
    chunk_unet_check := convert_unet_on
    controlnet_support_check := convert_unet_on
    convert_text_encoder_check := true
    convert_encoder_check := true
    convert_decoder_check := true
    convert_safety_checker_check := true
    select_none_button := true
    select_all_button := true
    controlnet_version_entry := true
    width_entry := true
    height_entry := true
    cpu_and_ne_check := true
    cpu_and_gpu_check := true
    all_compute_units_check := true }

/-- The selection globals touched by the select-local-model callback. -/
structure SelectionState where
  ckpt_location : Option String
  model_location : Option String
  versionEntry : String
deriving DecidableEq

/-- select_local_model: store the dialog result; when it is truthy, write
the preferences (save_last_checkpoint_path saves the whole document),
clear the checkpoint selection and the version entry.  The Bool records
whether a preferences write to disk occurred. -/
def select_local_model (preferences : Doc) (st : SelectionState) (dialogResult : String) :
    Doc × SelectionState × Bool :=
  let st' := { st with model_location := some dialogResult }
  if dialogResult = "" then (preferences, st', false)
  else
    (save_last_checkpoint_path preferences dialogResult,
     { st' with ckpt_location := none, versionEntry := "" }, true)

/-- A fully valid submission: a typed identifier, no selections, empty
sizes, a chosen destination folder. -/
def goodInput : RawInput :=
  { versionEntry := "some-model"
    controlnetEntry := ""
    widthEntry := ""
    heightEntry := ""
    ckpt_location := none
    model_location := none
    convert_unet := true
    chunk_unet := false
    controlnet_support := true
    convert_text_encoder := true
    convert_vae_encoder := true
    convert_vae_decoder := true
    convert_safety_checker := false
    compute_unit := "CPU_AND_NE"
    from_safetensors := false
    output_folder := "/out" }

/-- Valid submission whose destination-folder dialog was cancelled. -/
def c2input : RawInput := { goodInput with output_folder := "" }

/-- Submission with the UNet flag off but stale dependent flags on. -/
def c5input : RawInput :=
  { goodInput with convert_unet := false, chunk_unet := true, controlnet_support := true }

/-- Submission with only the width field filled. -/
def c8inputA : RawInput := { goodInput with widthEntry := "512" }

/-- Submission with both size fields filled with negative numbers. -/
def c8inputB : RawInput := { goodInput with widthEntry := "-3", heightEntry := "-3" }

/-- The validation condition claimed by the spec: no model source
resolvable (trimmed identifier empty, no directory, no checkpoint, empty
stored default), or destination absent, or a size field that does not
parse. -/
def c2ClaimCond (lastModelVersion : String) (input : RawInput) : Bool :=
  (pyStrip (PlaceholderEntry.get input.versionEntry lastModelVersion) == ""
     && !(pyTruthy input.model_location) && !(pyTruthy input.ckpt_location)
     && lastModelVersion == "")
  || pyStrip input.output_folder == ""
  || (parseSizes input.heightEntry input.widthEntry == none)

/-! ### Preferences-store lemmas and claim C1 -/

theorem lookupKey_append_some {l₁ : Doc} (l₂ : Doc) {k : String} {v : PrefValue}
    (h : lookupKey l₁ k = some v) : lookupKey (l₁ ++ l₂) k = some v := by
  induction l₁ with
  | nil => simp [lookupKey] at h
  | cons kv rest ih =>
    rcases kv with ⟨k', v'⟩
    by_cases hk : k' = k
    · simp [lookupKey, hk] at h ⊢
      exact h
    · simp [lookupKey, hk] at h ⊢
      exact ih h

theorem lookupKey_append_none {l₁ : Doc} (l₂ : Doc) {k : String}
    (h : lookupKey l₁ k = none) : lookupKey (l₁ ++ l₂) k = lookupKey l₂ k := by
  induction l₁ with
  | nil => simp
  | cons kv rest ih =>
    rcases kv with ⟨k', v'⟩
    by_cases hk : k' = k
    · simp [lookupKey, hk] at h
    · simp [lookupKey, hk] at h ⊢
      exact ih h

theorem setIfAbsent_preserves {d : Doc} {k' : String} {v' : PrefValue} (k : String) (v : PrefValue)
    (h : lookupKey d k' = some v') : lookupKey (setIfAbsent d k v) k' = some v' := by
  unfold setIfAbsent
  split
  · exact h
  · exact lookupKey_append_some _ h

theorem setIfAbsent_absent_self {d : Doc} {k : String} (v : PrefValue)
    (h : lookupKey d k = none) : lookupKey (setIfAbsent d k v) k = some v := by
  unfold setIfAbsent
  split
  · next x heq => rw [heq] at h; exact absurd h (by simp)
  · rw [lookupKey_append_none _ h]
    simp [lookupKey]

theorem setIfAbsent_none_other {d : Doc} {k' : String} (k : String) (v : PrefValue)
    (hne : ¬ k = k') (h : lookupKey d k' = none) :
    lookupKey (setIfAbsent d k v) k' = none := by
  unfold setIfAbsent
  split
  · exact h
  · rw [lookupKey_append_none _ h]
    simp [lookupKey, hne]

theorem foldl_setIfAbsent_preserves (l : List (String × PrefValue)) {d : Doc} {k : String}
    {v : PrefValue} (h : lookupKey d k = some v) :
    lookupKey (l.foldl (fun d kv => setIfAbsent d kv.1 kv.2) d) k = some v := by
  induction l generalizing d with
  | nil => exact h
  | cons kv rest ih => exact ih (setIfAbsent_preserves _ _ h)

theorem foldl_setIfAbsent_none (l : List (String × PrefValue)) {d : Doc} {k : String}
    (h : lookupKey d k = none) :
    lookupKey (l.foldl (fun d kv => setIfAbsent d kv.1 kv.2) d) k = lookupKey l k := by
  induction l generalizing d with
  | nil => simpa [lookupKey] using h
  | cons kv rest ih =>
    rcases kv with ⟨k₁, v₁⟩
    by_cases hk : k₁ = k
    · subst hk
      have h1 : lookupKey (setIfAbsent d k₁ v₁) k₁ = some v₁ := setIfAbsent_absent_self _ h
      simp only [List.foldl_cons]
      rw [foldl_setIfAbsent_preserves rest h1]
      simp [lookupKey]
    · have h1 : lookupKey (setIfAbsent d k₁ v₁) k = none := setIfAbsent_none_other _ _ hk h
      simp only [List.foldl_cons]
      rw [ih h1]
      simp [lookupKey, hk]

/-- C1: for every loaded preferences document (missing any subset of the
recognized keys), fetch_preferences returns a document in which every
recognized key is present, every key that was present keeps its loaded
value unchanged, and every missing key gets the hard-coded default. -/
theorem fetch_preferences_backfill (home : String) (doc : Doc) (k : String) :
    (k ∈ recognizedKeys → (lookupKey (fetch_preferences home (some doc)) k).isSome = true)
    ∧ (∀ v, lookupKey doc k = some v →
        lookupKey (fetch_preferences home (some doc)) k = some v)
    ∧ (lookupKey doc k = none →
        lookupKey (fetch_preferences home (some doc)) k = lookupKey (defaultEntries home) k) := by
  refine ⟨?_, ?_, ?_⟩
  · intro hmem
    cases hd : lookupKey doc k with
    | some v =>
      have := foldl_setIfAbsent_preserves (defaultEntries home) hd
      simp only [fetch_preferences, Option.getD]
      rw [this]
      rfl
    | none =>
      simp only [fetch_preferences, Option.getD]
      rw [foldl_setIfAbsent_none _ hd]
      simp only [recognizedKeys, List.mem_cons, List.not_mem_nil, or_false] at hmem
      rcases hmem with rfl | rfl | rfl | rfl | rfl | rfl | rfl | rfl | rfl | rfl | rfl | rfl | rfl <;>
        simp [defaultEntries, lookupKey]
  · intro v hv
    have := foldl_setIfAbsent_preserves (defaultEntries home) hv
    simpa only [fetch_preferences, Option.getD] using this
  · intro hd
    have := foldl_setIfAbsent_none (defaultEntries home) hd
    simpa only [fetch_preferences, Option.getD] using this

/-- C1 witness: a document holding only convert_unet = false keeps that
value and gets the missing chunk_unet backfilled. -/
theorem fetch_preferences_backfill_witness :
    (lookupKey (fetch_preferences "/h" (some [("convert_unet", PrefValue.b false)])) "chunk_unet").isSome = true
    ∧ lookupKey (fetch_preferences "/h" (some [("convert_unet", PrefValue.b false)])) "convert_unet"
        = some (PrefValue.b false) :=
  ⟨(fetch_preferences_backfill "/h" [("convert_unet", PrefValue.b false)] "chunk_unet").1 (by decide),
   (fetch_preferences_backfill "/h" [("convert_unet", PrefValue.b false)] "convert_unet").2.1
     (PrefValue.b false) (by decide)⟩

/-! ### Submission-flow lemmas -/

theorem convert_model_ran_eq (i r : Bool) (lmv : String) (input : RawInput) (raises : Bool)
    (h : isRan ((convert_model i r lmv input raises).1) = true) :
    ∃ oh ow, parseSizes input.heightEntry input.widthEntry = some (oh, ow)
      ∧ (convert_model i r lmv input raises).1 =
          Outcome.ran
            (buildArgs input
              (resolveModelVersion input.versionEntry lmv input.ckpt_location input.model_location)
              oh ow)
            (!raises) := by
  by_cases h1 : (!i && !r) = true
  · simp [convert_model, convert_model_outcome, h1, isRan] at h
  · by_cases h2 : resolveModelVersion input.versionEntry lmv input.ckpt_location input.model_location = ""
    · simp [convert_model, convert_model_outcome, h1, h2, isRan] at h
    · rcases h3 : parseSizes input.heightEntry input.widthEntry with _ | ⟨oh, ow⟩
      · simp [convert_model, convert_model_outcome, h1, h2, h3, isRan] at h
      · by_cases h4 : pyStrip input.output_folder = ""
        · simp [convert_model, convert_model_outcome, h1, h2, h3, h4, isRan] at h
        · exact ⟨oh, ow, rfl, by simp [convert_model, convert_model_outcome, h1, h2, h3, h4]⟩

theorem parseSizes_eq {he we : String} {oh ow : Option Int}
    (h : parseSizes he we = some (oh, ow)) :
    some oh = (if pyStrip (PlaceholderEntry.get he "Height") = "" then some none
               else (pyInt (pyStrip (PlaceholderEntry.get he "Height"))).map some)
    ∧ some ow = (if pyStrip (PlaceholderEntry.get we "Width") = "" then some none
               else (pyInt (pyStrip (PlaceholderEntry.get we "Width"))).map some) := by
  simp only [parseSizes] at h
  split at h
  · exact absurd h (by simp)
  · rename_i oh₁ hH
    split at h
    · exact absurd h (by simp)
    · rename_i ow₁ hW
      simp only [Option.some.injEq, Prod.mk.injEq] at h
      exact ⟨by rw [hH, h.1], by rw [hW, h.2]⟩

/-! ### Claim C2 -/

/-- C2 counterexample: on a fully valid submission whose destination
dialog was cancelled, the spec condition for ValidationError holds
(destination absent) but convert_model only returns silently: no
validation error and no dialog at all. -/
theorem convert_validation_counterexample :
    c2ClaimCond "dm" c2input = true
    ∧ isValidationError ((convert_model true true "dm" c2input false).1) = false
    ∧ (convert_model true true "dm" c2input false).1 = Outcome.abortedFolder
    ∧ (convert_model true true "dm" c2input false).2 = [] := by decide

/-- C2 amended: with the toolchain gate passed, a validation-error dialog
occurs iff the resolved model version is empty or a non-empty size field
does not parse as an integer; an absent destination directory instead
aborts silently (no dialog); whenever the outcome is not a run, the
converter is never invoked. -/
theorem convert_validation_characterization (i r : Bool) (lmv : String) (input : RawInput)
    (raises : Bool) (htool : (!i && !r) = false) :
    (isValidationError ((convert_model i r lmv input raises).1) = true ↔
       (resolveModelVersion input.versionEntry lmv input.ckpt_location input.model_location = ""
        ∨ parseSizes input.heightEntry input.widthEntry = none))
    ∧ (isRan ((convert_model i r lmv input raises).1) = false →
        UIEvent.converterCall ∉ (convert_model i r lmv input raises).2)
    ∧ (resolveModelVersion input.versionEntry lmv input.ckpt_location input.model_location ≠ "" →
       parseSizes input.heightEntry input.widthEntry ≠ none →
       pyStrip input.output_folder = "" →
       (convert_model i r lmv input raises).1 = Outcome.abortedFolder
         ∧ (convert_model i r lmv input raises).2 = []) := by
  have hev : (convert_model i r lmv input raises).2
      = convert_model_events ((convert_model i r lmv input raises).1) := rfl
  by_cases h2 : resolveModelVersion input.versionEntry lmv input.ckpt_location input.model_location = ""
  · have ho : (convert_model i r lmv input raises).1 = Outcome.invalid chooseModelMsg := by
      simp [convert_model, convert_model_outcome, htool, h2]
    refine ⟨?_, ?_, ?_⟩
    · simp [ho, isValidationError, h2]
    · intro _
      rw [hev, ho]
      simp [convert_model_events]
    · intro hc _ _
      exact absurd h2 hc
  · rcases h3 : parseSizes input.heightEntry input.widthEntry with _ | ⟨oh, ow⟩
    · have ho : (convert_model i r lmv input raises).1 = Outcome.invalid invalidSizeMsg := by
        simp [convert_model, convert_model_outcome, htool, h2, h3]
      refine ⟨?_, ?_, ?_⟩
      · simp [ho, isValidationError, h3]
      · intro _
        rw [hev, ho]
        simp [convert_model_events]
      · intro _ hp _
        exact absurd rfl hp
    · by_cases h4 : pyStrip input.output_folder = ""
      · have ho : (convert_model i r lmv input raises).1 = Outcome.abortedFolder := by
          simp [convert_model, convert_model_outcome, htool, h2, h3, h4]
        refine ⟨?_, ?_, ?_⟩
        · simp [ho, isValidationError, h2, h3]
        · intro _
          rw [hev, ho]
          simp [convert_model_events]
        · intro _ _ _
          refine ⟨ho, ?_⟩
          rw [hev, ho]
          rfl
      · have ho : (convert_model i r lmv input raises).1 =
            Outcome.ran
              (buildArgs input
                (resolveModelVersion input.versionEntry lmv input.ckpt_location input.model_location)
                oh ow)
              (!raises) := by
          simp [convert_model, convert_model_outcome, htool, h2, h3, h4]
        refine ⟨?_, ?_, ?_⟩
        · simp [ho, isValidationError, h2, h3]
        · intro hr
          rw [ho] at hr
          simp [isRan] at hr
        · intro _ _ h4'
          exact absurd h4' h4

/-- C2 witness: on a fully valid submission the characterization applies
with the toolchain gate passed. -/
theorem convert_validation_characterization_witness :
    (isValidationError ((convert_model true true "dm" goodInput false).1) = true ↔
      (resolveModelVersion goodInput.versionEntry "dm" goodInput.ckpt_location goodInput.model_location = ""
       ∨ parseSizes goodInput.heightEntry goodInput.widthEntry = none)) :=
  (convert_validation_characterization true true "dm" goodInput false (by decide)).1

/-! ### Claim C3 -/

/-- C3 counterexample: a submission whose converter call raises still has
the preferences write as its very first effect, before the converter ran;
and selecting a local model directory writes the preferences at
input-collection time. -/
theorem prefs_write_counterexample :
    ranSuccess ((convert_model true true "dm" goodInput true).1) = some false
    ∧ ((convert_model true true "dm" goodInput true).2.head?.map isSavePrefs = some true)
    ∧ (select_local_model [] ⟨none, none, "typed"⟩ "/models/m").2.2 = true := by decide

/-- C3 amended: on every submission that reaches the converter the
preferences document is written first — before the converter is invoked,
hence regardless of whether it raises — and the select-local-model
callback writes the preferences already at input-collection time. -/
theorem prefs_written_before_every_run (i r : Bool) (lmv : String) (input : RawInput)
    (raises : Bool) (h : isRan ((convert_model i r lmv input raises).1) = true) :
    (convert_model i r lmv input raises).2.head? =
      (outcomeArgs ((convert_model i r lmv input raises).1)).map
        (fun a => UIEvent.savePrefs (save_args_preferences a))
    ∧ (∀ preferences st res, res ≠ "" →
        (select_local_model preferences st res).2.2 = true
        ∧ (select_local_model preferences st res).1 = save_last_checkpoint_path preferences res) := by
  constructor
  · obtain ⟨oh, ow, h3, heq⟩ := convert_model_ran_eq i r lmv input raises h
    have hev : (convert_model i r lmv input raises).2
        = convert_model_events ((convert_model i r lmv input raises).1) := rfl
    rw [hev, heq]
    simp [convert_model_events, outcomeArgs]
  · intro preferences st res hres
    simp [select_local_model, hres]

/-- C3 witness: the amended statement at a concrete failing run. -/
theorem prefs_written_before_every_run_witness :
    (convert_model true true "dm" goodInput true).2.head? =
      (outcomeArgs ((convert_model true true "dm" goodInput true).1)).map
        (fun a => UIEvent.savePrefs (save_args_preferences a)) :=
  (prefs_written_before_every_run true true "dm" goodInput true (by decide)).1

/-! ### Claim C4 -/

/-- C4 counterexample: with both a checkpoint file and a local directory
set, the resolution takes the directory name, not the checkpoint name, so
the checkpoint does not take priority over the directory. -/
theorem resolve_priority_counterexample :
    resolveModelVersion "free-text" "stored-default" (some "/a/model.ckpt") (some "/b/mydir") = "mydir"
    ∧ (splitext (basename (normpath "/a/model.ckpt"))).1 = "model"
    ∧ ("mydir" : String) ≠ "model" := by decide

/-- C4 amended: the resolution order is local directory first, then
checkpoint file, then the non-empty trimmed free text, then the stored
default — in particular a selected directory wins over a non-empty
free-text identifier. -/
theorem resolve_priority_order (entry lmv : String) (ckpt dir : Option String) :
    (pyTruthy dir = true →
      resolveModelVersion entry lmv ckpt dir = basename (normpath (dir.getD "")))
    ∧ (pyTruthy dir = false → pyTruthy ckpt = true →
      resolveModelVersion entry lmv ckpt dir = (splitext (basename (normpath (ckpt.getD "")))).1)
    ∧ (pyTruthy dir = false → pyTruthy ckpt = false →
      resolveModelVersion entry lmv ckpt dir =
        (if pyStrip (PlaceholderEntry.get entry lmv) = "" then lmv
         else pyStrip (PlaceholderEntry.get entry lmv))) := by
  refine ⟨?_, ?_, ?_⟩
  · intro h1
    simp [resolveModelVersion, h1]
  · intro h1 h2
    simp [resolveModelVersion, h1, h2]
  · intro h1 h2
    simp [resolveModelVersion, h1, h2]

/-- C4 witness: a chosen directory determines the name even though the
free-text field is non-empty. -/
theorem resolve_priority_order_witness :
    resolveModelVersion "typed-identifier" "dm" none (some "/b/mydir")
      = basename (normpath "/b/mydir") :=
  (resolve_priority_order "typed-identifier" "dm" none (some "/b/mydir")).1 (by decide)

/-! ### Claim C5 -/

/-- C5 counterexample: a submission with the UNet flag off and stale
dependent flags on builds a descriptor whose chunk and ControlNet-support
flags are still true. -/
theorem gated_flags_counterexample :
    (outcomeArgs ((convert_model true true "dm" c5input false).1)).map Args.convert_unet = some false
    ∧ (outcomeArgs ((convert_model true true "dm" c5input false).1)).map Args.chunk_unet = some true
    ∧ (outcomeArgs ((convert_model true true "dm" c5input false).1)).map Args.controlnet_support = some true := by
  decide

/-- C5 amended: the builder forwards the raw checkbox values of the chunk
and ControlNet-support flags unchanged, regardless of the UNet flag;
gating exists only in the enabling of the controls, not in the built
descriptor. -/
theorem flags_forwarded_raw (i r : Bool) (lmv : String) (input : RawInput) (raises : Bool)
    (h : isRan ((convert_model i r lmv input raises).1) = true) :
    (outcomeArgs ((convert_model i r lmv input raises).1)).map Args.chunk_unet
        = some input.chunk_unet
    ∧ (outcomeArgs ((convert_model i r lmv input raises).1)).map Args.controlnet_support
        = some input.controlnet_support
    ∧ (outcomeArgs ((convert_model i r lmv input raises).1)).map Args.convert_unet
        = some input.convert_unet := by
  obtain ⟨oh, ow, h3, heq⟩ := convert_model_ran_eq i r lmv input raises h
  rw [heq]
  simp [outcomeArgs, buildArgs]

/-- C5 witness: the amended statement at a concrete run. -/
theorem flags_forwarded_raw_witness :
    (outcomeArgs ((convert_model true true "dm" c5input false).1)).map Args.chunk_unet
      = some c5input.chunk_unet :=
  (flags_forwarded_raw true true "dm" c5input false (by decide)).1

/-! ### Claim C6 -/

/-- C6: on every exit from a run — converter returned normally or raised —
the last emitted event clears the busy signaling (show_converting False
runs in the finally block), the converter was called, and the resulting
control state is the interactive idle configuration (everything enabled,
the two UNet-dependent checkboxes gated on the UNet flag). -/
theorem running_exit_cleanup (i r : Bool) (lmv : String) (input : RawInput) (raises : Bool)
    (h : isRan ((convert_model i r lmv input raises).1) = true) :
    (convert_model i r lmv input raises).2.getLast? = some (UIEvent.showConverting false)
    ∧ UIEvent.converterCall ∈ (convert_model i r lmv input raises).2
    ∧ show_converting false input.convert_unet = idleControls input.convert_unet := by
  obtain ⟨oh, ow, h3, heq⟩ := convert_model_ran_eq i r lmv input raises h
  have hev : (convert_model i r lmv input raises).2
      = convert_model_events ((convert_model i r lmv input raises).1) := rfl
  refine ⟨?_, ?_, ?_⟩
  · rw [hev, heq]
    rfl
  · rw [hev, heq]
    simp [convert_model_events]
  · generalize input.convert_unet = b
    cases b <;> rfl

/-- C6 witness: cleanup at a concrete failing run. -/
theorem running_exit_cleanup_witness :
    (convert_model true true "dm" goodInput true).2.getLast? = some (UIEvent.showConverting false)
    ∧ UIEvent.converterCall ∈ (convert_model true true "dm" goodInput true).2
    ∧ show_converting false goodInput.convert_unet = idleControls goodInput.convert_unet :=
  running_exit_cleanup true true "dm" goodInput true (by decide)

/-! ### Claim C7 -/

/-- C7: is_coremlcompiler_installed returns true iff both external
version queries — first the xcrun entry point, then the coremlcompiler
sub-command — complete without raising; any failure yields false (the
function is total, so nothing propagates). -/
theorem toolchain_present_iff (runCommand : List String → Except String String) :
    is_coremlcompiler_installed runCommand = true ↔
      (exceptOk (runCommand ["xcrun", "--version"]) = true
       ∧ exceptOk (runCommand ["xcrun", "coremlcompiler", "version"]) = true) := by
  cases h₁ : runCommand ["xcrun", "--version"] <;>
    cases h₂ : runCommand ["xcrun", "coremlcompiler", "version"] <;>
      simp [is_coremlcompiler_installed, exceptOk, h₁, h₂]

/-! ### Claim C8 -/

/-- C8 counterexample: a successfully built descriptor with only the
width field filled has width present and height absent, and negative
size fields are accepted as they are. -/
theorem size_invariant_counterexample :
    (outcomeArgs ((convert_model true true "dm" c8inputA false).1)).map Args.output_w
        = some (some 512)
    ∧ (outcomeArgs ((convert_model true true "dm" c8inputA false).1)).map Args.output_h
        = some none
    ∧ (outcomeArgs ((convert_model true true "dm" c8inputB false).1)).map Args.output_w
        = some (some (-3)) := by
  decide

/-- C8 amended: in every successfully built descriptor each size field is
independently optional — the value is absent iff the trimmed field is
empty, and otherwise it is exactly the python int parse of the field
(which may be zero or negative). -/
theorem size_fields_independent (i r : Bool) (lmv : String) (input : RawInput) (raises : Bool)
    (h : isRan ((convert_model i r lmv input raises).1) = true) :
    (outcomeArgs ((convert_model i r lmv input raises).1)).map (fun a => some a.output_h)
      = some (if pyStrip (PlaceholderEntry.get input.heightEntry "Height") = "" then some none
              else (pyInt (pyStrip (PlaceholderEntry.get input.heightEntry "Height"))).map some)
    ∧ (outcomeArgs ((convert_model i r lmv input raises).1)).map (fun a => some a.output_w)
      = some (if pyStrip (PlaceholderEntry.get input.widthEntry "Width") = "" then some none
              else (pyInt (pyStrip (PlaceholderEntry.get input.widthEntry "Width"))).map some) := by
  obtain ⟨oh, ow, h3, heq⟩ := convert_model_ran_eq i r lmv input raises h
  obtain ⟨hh, hw⟩ := parseSizes_eq h3
  rw [heq]
  constructor
  · show some (some oh)
        = some (if pyStrip (PlaceholderEntry.get input.heightEntry "Height") = "" then some none
                else (pyInt (pyStrip (PlaceholderEntry.get input.heightEntry "Height"))).map some)
    exact congrArg some hh
  · show some (some ow)
        = some (if pyStrip (PlaceholderEntry.get input.widthEntry "Width") = "" then some none
                else (pyInt (pyStrip (PlaceholderEntry.get input.widthEntry "Width"))).map some)
    exact congrArg some hw

/-- C8 witness: the amended statement at a concrete run with only the
width field filled. -/
theorem size_fields_independent_witness :
    (outcomeArgs ((convert_model true true "dm" c8inputA false).1)).map (fun a => some a.output_h)
      = some (if pyStrip (PlaceholderEntry.get c8inputA.heightEntry "Height") = "" then some none
              else (pyInt (pyStrip (PlaceholderEntry.get c8inputA.heightEntry "Height"))).map some) :=
  (size_fields_independent true true "dm" c8inputA false (by decide)).1

/-! ### Claim C9 -/

/-- C9: for the chosen checkpoint path /a/model.ckpt the resolved model
name is the base name with the extension stripped, namely model —
whatever the free-text entry and stored default are. -/
theorem ckpt_resolved_name (entry lmv : String) :
    resolveModelVersion entry lmv (some "/a/model.ckpt") none = "model" := rfl

/-! ### Claim C10 -/

/-- C10: entry text equal to the placeholder reads back empty; with the
stored default shown as the placeholder of the version entry, typing that
very identifier resolves to the stored default, indistinguishable from
leaving the field empty. -/
theorem placeholder_text_indistinguishable (p lmv : String) :
    PlaceholderEntry.get p p = ""
    ∧ resolveModelVersion lmv lmv none none = lmv
    ∧ resolveModelVersion lmv lmv none none = resolveModelVersion "" lmv none none := by
  have h0 : pyStrip "" = "" := rfl
  refine ⟨by simp [PlaceholderEntry.get], ?_, ?_⟩
  · simp [resolveModelVersion, PlaceholderEntry.get, pyTruthy, h0]
  · simp [resolveModelVersion, PlaceholderEntry.get, pyTruthy, h0, ite_self]
